import Mathlib

set_option linter.unusedVariables false

/-!
Shallow embedding of `enhanced_burst_generator.py` (SteveCurcy/PortableTools).

The program starts a pool of listening server threads on consecutive ports
(`Server.start`, source lines 69-80), then launches `c_n` client threads that
each retry a connect-and-send against one randomly chosen port until the first
success (`client_thread.connect` / `client_thread.run` / `Client.start`,
lines 93-128), joins them (`Client.join`, lines 130-133) and stops the servers.

Socket effects are modelled by oracles: `bindOk p` says whether creating
`server_thread(p, threads)` (bind + listen) succeeds at port `p`; an
`AttemptEnv` records whether one client attempt's `connect` and `send` calls
succeed; a map `r : Nat -> Nat` is the random source behind `random.randint`.
Loops are given explicit fuel; running out of fuel is reported as a distinct
outcome, so divergence and exceptions stay separate from normal returns.
-/

/-- The fixed test payload `TEST_MSG = b'Hello, eBPF!'` (line 26).  Its content
is never interpreted by either side; we keep it as an uninterpreted string
constant. -/
def TEST_MSG : String := "Hello, eBPF!"

/-- Result of a call to `Server.start` (lines 69-80).  `ok` is a normal return
carrying the collected `s_ports`; `exn` means an exception escaped the
`try .. finally` block (the block has no `except` clause, so a failure inside
it propagates out of `start` after the `finally` ran `s_port += 1`);
`outOfFuel` means the `while` loop had not terminated within the given number
of iterations.  `ok` and `exn` also record the list of ports on which a bind
was attempted, in order of attempt. -/
inductive StartResult where
  | ok (s_ports : List Nat) (attempts : List Nat)
  | exn (attempts : List Nat)
  | outOfFuel
deriving DecidableEq

/-- The `while` loop of `Server.start` (lines 71-79):
`while s_counter < self.s_n or s_port >= 65535:` then
`try: s = server_thread(s_port, ...); s_ports.append(s_port); s_counter += 1;
s.start() finally: s_port += 1`.  `bindOk s_port` models whether the
`server_thread` constructor (socket bind + listen, lines 34-38) succeeds at
that port; when it fails, the raised error propagates (there is no `except`),
producing `exn`. -/
def Server.startLoop (bindOk : Nat → Bool) (s_n : Nat) :
    Nat → Nat → Nat → List Nat → List Nat → StartResult
  | 0, _, _, _, _ => .outOfFuel
  | fuel + 1, s_port, s_counter, s_ports, attempts =>
    if s_counter < s_n ∨ 65535 ≤ s_port then
      if bindOk s_port then
        Server.startLoop bindOk s_n fuel (s_port + 1) (s_counter + 1)
          (s_ports ++ [s_port]) (attempts ++ [s_port])
      else
        .exn (attempts ++ [s_port])
    else
      .ok s_ports attempts

/-- `Server.start(self, s_port)` (lines 69-80): runs the allocation loop from
`s_counter = 0`, `s_ports = []`.  `threads` is the `self.threads` field handed
to each `server_thread`; it only parameterises the socket layer, which the
`bindOk` oracle abstracts. -/
def Server.start (bindOk : Nat → Bool) (threads s_n fuel s_port : Nat) : StartResult :=
  Server.startLoop bindOk s_n fuel s_port 0 [] []

/-- Oracle for one `client_thread.connect` call (lines 93-108): whether
`s.connect(self.addr)` succeeds and whether `s.send(TEST_MSG)` succeeds; a
failing step raises `socket.error`. -/
structure AttemptEnv where
  connectOk : Bool
  sendOk : Bool
deriving DecidableEq

/-- What a `client_thread.connect` call leaves behind: the returned boolean and
whether the socket it opened was closed before returning. -/
structure ConnectResult where
  ret : Bool
  closed : Bool
deriving DecidableEq

/-- `client_thread.connect` (lines 93-108): open a socket, then
`try: s.connect(self.addr); s.send(TEST_MSG); return True
except socket.error: return False finally: s.close()`.
The `try` body is modelled as an `Except`: `connect` raises when `connectOk`
is false, otherwise `send` raises when `sendOk` is false, otherwise the body
returns `True`.  The `except socket.error` arm turns every raised error into
`False`, and the `finally` closes the socket on both paths. -/
def client_thread.connect (env : AttemptEnv) : ConnectResult :=
  let tryBody : Except Unit Bool :=
    if env.connectOk then
      if env.sendOk then .ok true
      else .error ()
    else .error ()
  match tryBody with
  | .ok v => { ret := v, closed := true }
  | .error _ => { ret := false, closed := true }

/-- `client_thread.run` (lines 110-112): `while not self.connect(): pass`.
`envs j` is the socket environment seen by the `j`-th attempt; the driver
stops at the first attempt whose `connect` returns `True` and reports its
index, or `none` when the fuel ran out before any success. -/
def client_thread.run (envs : Nat → AttemptEnv) : Nat → Nat → Option Nat
  | 0, _ => none
  | fuel + 1, i =>
    if (client_thread.connect (envs i)).ret then some i
    else client_thread.run envs fuel (i + 1)

/-- `Client.join` (lines 130-133): `for i in self.c_list: i.join()`.  Each
driver `d` in the list is joined, i.e. its `run` loop must have terminated;
the result collects each driver's stopping index.  `none` means some driver
had not terminated within the fuel bound, in which case `join` is still
blocked. -/
def Client.join (fuel : Nat) : List (Nat → AttemptEnv) → Option (List Nat)
  | [] => some []
  | d :: ds =>
    match client_thread.run d fuel 0, Client.join fuel ds with
    | some k, some ks => some (k :: ks)
    | _, _ => none

/-- Number of successful sends performed by a driver that executed attempts
`0, 1, ..., k`: the count of those attempts whose `connect` returned `True`
(each `True` return is exactly one successful `send` of `TEST_MSG`). -/
def sendSuccessCount (envs : Nat → AttemptEnv) (k : Nat) : Nat :=
  ((List.range (k + 1)).filter fun j => (client_thread.connect (envs j)).ret).length

/-- `random.randint(0, hi)` (used at line 125 with `hi = s_n - 1`): raises
`ValueError` when the range `[0, hi]` is empty (`hi < 0`), otherwise yields a
uniform draw from `[0, hi]`, modelled as the `i`-th oracle value reduced
modulo `hi + 1`. -/
def randint0 (r : Nat → Nat) (i : Nat) (hi : Int) : Except Unit Nat :=
  if hi < 0 then .error ()
  else .ok (r i % (hi.toNat + 1))

/-- Result of `Client.start` (lines 122-128): `ok targets` is a normal return
where `targets` lists, per launched client thread, the port it was constructed
with; `valueError started` means `random.randint` raised, with `started` the
targets of the threads already launched before the raise. -/
inductive ClientStartResult where
  | ok (targets : List Nat)
  | valueError (started : List Nat)
deriving DecidableEq

/-- The `for i in range(self.c_n)` loop of `Client.start` (lines 124-128):
`tar_index = random.randint(0, s_n - 1); c = client_thread(self.s_ports[tar_index]);
self.c_list.append(c); c.start()`.  Indexing `s_ports[tar_index]` is modelled
with `getD` (the default is never reached: a non-raising `randint0` value is
always a valid index). -/
def Client.startLoop (r : Nat → Nat) (s_ports : List Nat) :
    Nat → Nat → List Nat → ClientStartResult
  | 0, _, started => .ok started
  | c + 1, i, started =>
    match randint0 r i ((s_ports.length : Int) - 1) with
    | .error _ => .valueError started
    | .ok tar_index =>
      Client.startLoop r s_ports c (i + 1) (started ++ [s_ports.getD tar_index 0])

/-- `Client.start(self)` (lines 122-128) with `s_n = len(self.s_ports)`
computed once before the loop. -/
def Client.start (r : Nat → Nat) (s_ports : List Nat) (c_n : Nat) : ClientStartResult :=
  Client.startLoop r s_ports c_n 0 []

/-- Error codes of `EbgException` (lines 136-140). -/
def EbgException.CLIENT_NUM_ERROR : Nat := 1

def EbgException.SERVER_NUM_ERROR : Nat := 2

def EbgException.THREAD_NUM_ERROR : Nat := 3

def EbgException.NO_PORT_TO_USE : Nat := 4

/-- The argument-validation block of `__main__` (lines 178-187): raises
`EbgException(CLIENT_NUM_ERROR)` when `CLIENT_NUM <= 0`, then
`SERVER_NUM_ERROR` when `SERVER_NUM <= 0`, then `THREAD_NUM_ERROR` when
`THREAD_NUM <= 0`; `PORT` is read at line 181 but never checked. -/
def validateArgs (CLIENT_NUM SERVER_NUM THREAD_NUM PORT : Int) : Option Nat :=
  if CLIENT_NUM ≤ 0 then some EbgException.CLIENT_NUM_ERROR
  else if SERVER_NUM ≤ 0 then some EbgException.SERVER_NUM_ERROR
  else if THREAD_NUM ≤ 0 then some EbgException.THREAD_NUM_ERROR
  else none

/-- The orchestrator's port check (lines 193-194):
`if not len(s_ports): raise EbgException(EbgException.NO_PORT_TO_USE)`. -/
def mainPortCheck (s_ports : List Nat) : Option Nat :=
  if s_ports.length = 0 then some EbgException.NO_PORT_TO_USE else none

/-- C1: evaluation of the code at the failing input.  With `N = 1` and a bind
failure at base port 50000, `Server.start` does not skip the port and return
normally: the bind error escapes the `try .. finally` (which has no `except`)
and propagates to the caller after one attempt. -/
theorem Server.start_bind_failure_raises :
    Server.start (fun _ => false) 1 1 10 50000 = StartResult.exn [50000] := by
  decide

/-- C2: evaluation of the code at the boundary input.  With base port 65535 and
`N = 1`, a successful bind at 65535 does not stop the loop: the condition
`s_counter < self.s_n or s_port >= 65535` stays true because the port is at the
boundary, so a second bind is attempted at 65536 (out of range, so it fails)
and its error propagates — not the claimed single attempt followed by a clean
stop. -/
theorem Server.start_boundary_two_attempts :
    Server.start (fun q => decide (q = 65535)) 1 1 10 65535 =
      StartResult.exn [65535, 65536] := by
  decide

/-- C7: evaluation at a failing input.  A bind failure at base port 60000 with
`N = 2` escapes `Server.start` as a raised socket error (`exn`), so the core
surfaces a fatal error that is not the port-exhaustion `NO_PORT_TO_USE` error;
the orchestrator raises `NO_PORT_TO_USE` exactly on an empty port list, a
point this run never even reaches. -/
theorem Server.start_error_other_than_port_exhaustion :
    Server.start (fun _ => false) 1 2 10 60000 = StartResult.exn [60000] ∧
      mainPortCheck [] = some EbgException.NO_PORT_TO_USE := by
  constructor
  · decide
  · decide

/-- C8, counterexample: the CLI validation accepts a non-positive starting
port.  With clients = servers = threads = 1 and `PORT = -7 <= 0`, validation
raises nothing, contradicting the claim that all four flags are rejected when
non-positive. -/
theorem validateArgs_port_not_rejected :
    validateArgs 1 1 1 (-7) = none := by
  decide

/-- C8, amended: validation passes exactly when the client, server and thread
counts are all positive; the starting port is not constrained at all. -/
theorem validateArgs_spec (c s t p : Int) :
    validateArgs c s t p = none ↔ 0 < c ∧ 0 < s ∧ 0 < t := by
  unfold validateArgs
  split_ifs with h1 h2 h3 <;> simp <;> omega

/-- Once the port has reached 65535, the loop condition
`s_counter < s_n or s_port >= 65535` is true forever; with every bind
succeeding the loop therefore never returns, whatever the fuel. -/
theorem Server.startLoop_stuck_of_ge (s_n : Nat) :
    ∀ fuel s_port s_counter s_ports attempts, 65535 ≤ s_port →
      Server.startLoop (fun _ => true) s_n fuel s_port s_counter s_ports attempts =
        StartResult.outOfFuel := by
  intro fuel
  induction fuel with
  | zero => intro _ _ _ _ _; rfl
  | succ f ih =>
    intro s_port s_counter s_ports attempts hp
    rw [Server.startLoop, if_pos (Or.inr hp)]
    exact ih (s_port + 1) (s_counter + 1) (s_ports ++ [s_port]) (attempts ++ [s_port])
      (Nat.le_succ_of_le hp)

/-- At base port 65534 with `s_n = 1` and every bind succeeding,
`Server.start` is still looping after any number of iterations: after the
success at 65534 the port is 65535 and the loop condition `s_port >= 65535`
keeps the loop running forever. -/
theorem Server.start_65534_outOfFuel :
    ∀ fuel, Server.start (fun _ => true) 1 1 fuel 65534 = StartResult.outOfFuel := by
  intro fuel
  unfold Server.start
  cases fuel with
  | zero => rfl
  | succ f =>
    rw [Server.startLoop, if_pos (Or.inl (by omega))]
    show Server.startLoop (fun _ => true) 1 f 65535 1 [65534] [65534] = _
    exact Server.startLoop_stuck_of_ge 1 f 65535 1 [65534] [65534] (Nat.le_refl _)

/-- C3, counterexample: at base port `p = 65534` with `N = 1` the claim's
hypotheses hold (every bind from `p` upward succeeds and
`p + N - 1 = 65534 < 65535`), yet `Server.start` does not return the single
port 65534: even with fuel for 66000 loop iterations — more than the entire
port space — the call has not returned (and by `Server.start_65534_outOfFuel`
it never does, for any fuel): after the success at 65534 the loop condition
`s_port >= 65535` keeps the loop running. -/
theorem Server.start_boundary_never_returns :
    Server.start (fun _ => true) 1 1 66000 65534 = StartResult.outOfFuel :=
  Server.start_65534_outOfFuel 66000

/-- When the remaining `k` binds all succeed and the port after them stays
strictly below 65535, the allocation loop appends exactly the ports
`s_port, s_port + 1, ..., s_port + k - 1` and returns normally. -/
theorem Server.startLoop_all_success (bindOk : Nat → Bool) (s_n : Nat) :
    ∀ k fuel s_port s_counter s_ports attempts,
      s_counter + k = s_n →
      s_port + k < 65535 →
      (∀ q, s_port ≤ q → q < s_port + k → bindOk q = true) →
      k + 1 ≤ fuel →
      Server.startLoop bindOk s_n fuel s_port s_counter s_ports attempts =
        StartResult.ok (s_ports ++ List.range' s_port k) (attempts ++ List.range' s_port k) := by
  intro k
  induction k with
  | zero =>
    intro fuel s_port s_counter s_ports attempts hc hp hok hf
    cases fuel with
    | zero => omega
    | succ f =>
      rw [Server.startLoop, if_neg (by omega)]
      simp
  | succ m ih =>
    intro fuel s_port s_counter s_ports attempts hc hp hok hf
    cases fuel with
    | zero => omega
    | succ f =>
      rw [Server.startLoop, if_pos (Or.inl (by omega)),
        hok s_port (Nat.le_refl _) (by omega)]
      simp only [if_true]
      rw [ih f (s_port + 1) (s_counter + 1) (s_ports ++ [s_port]) (attempts ++ [s_port])
        (by omega) (by omega) (fun q h1 h2 => hok q (by omega) (by omega)) (by omega)]
      rw [List.range'_succ]
      simp

/-- C3, amended: for every `N >= 1` and base port `p` such that every bind
attempt in `[p, p + N)` succeeds and `p + N < 65535` (strengthened from the
claim's `p + N - 1 < 65535`, which the boundary counterexample refutes),
`Server.start` returns exactly the `N` ports `p, p + 1, ..., p + N - 1`:
a list of length `N`, strictly ascending (hence distinct), every member at
least `p`. -/
theorem Server.start_all_success (bindOk : Nat → Bool) (threads n p fuel : Nat)
    (hn : 1 ≤ n) (hrange : p + n < 65535)
    (hok : ∀ q, p ≤ q → q < p + n → bindOk q = true) (hfuel : n + 1 ≤ fuel) :
    Server.start bindOk threads n fuel p =
      StartResult.ok (List.range' p n) (List.range' p n) ∧
    (List.range' p n).length = n ∧
    List.Pairwise (· < ·) (List.range' p n) ∧
    ∀ q ∈ List.range' p n, p ≤ q := by
  refine ⟨?_, ?_, ?_, ?_⟩
  · unfold Server.start
    rw [Server.startLoop_all_success bindOk n n fuel p 0 [] [] (by omega) hrange hok hfuel]
    simp
  · exact List.length_range' p 1 n
  · exact List.pairwise_lt_range' p n
  · intro q hq
    exact (List.mem_range'_1.mp hq).1

/-- C3, witness: with every bind succeeding, `N = 2`, base port 50000 and fuel
3, `Server.start` returns exactly the ports 50000 and 50001. -/
theorem Server.start_all_success_witness :
    Server.start (fun _ => true) 1 2 3 50000 =
      StartResult.ok (List.range' 50000 2) (List.range' 50000 2) ∧
    (List.range' 50000 2).length = 2 ∧
    List.Pairwise (· < ·) (List.range' 50000 2) ∧
    ∀ q ∈ List.range' 50000 2, 50000 ≤ q :=
  Server.start_all_success (fun _ => true) 1 2 50000 3 (by decide) (by omega)
    (fun q _ _ => rfl) (by decide)

/-- C4: `client_thread.connect` returns `True` exactly when both the connect
and the send succeed, returns `False` on any socket error instead of
propagating it (it is a total function into `ConnectResult`), and on every
exit path the socket it opened is closed before the call returns. -/
theorem client_thread.connect_spec (env : AttemptEnv) :
    (client_thread.connect env).ret = (env.connectOk && env.sendOk) ∧
    (client_thread.connect env).closed = true := by
  obtain ⟨c, s⟩ := env
  cases c <;> cases s <;> exact ⟨rfl, rfl⟩

/-- The collected port list only grows across loop iterations: a normal return
carries at least as many ports as the accumulator already held. -/
theorem Server.startLoop_ok_length (bindOk : Nat → Bool) (s_n : Nat) :
    ∀ fuel s_port s_counter s_ports attempts l a,
      Server.startLoop bindOk s_n fuel s_port s_counter s_ports attempts =
        StartResult.ok l a →
      s_ports.length ≤ l.length := by
  intro fuel
  induction fuel with
  | zero => intro _ _ _ _ l a h; exact absurd h (by simp [Server.startLoop])
  | succ f ih =>
    intro s_port s_counter s_ports attempts l a h
    rw [Server.startLoop] at h
    by_cases hc : s_counter < s_n ∨ 65535 ≤ s_port
    · rw [if_pos hc] at h
      cases hb : bindOk s_port with
      | true =>
        rw [if_pos hb] at h
        have := ih (s_port + 1) (s_counter + 1) (s_ports ++ [s_port])
          (attempts ++ [s_port]) l a h
        simp at this
        omega
      | false =>
        rw [if_neg (by simp [hb])] at h
        exact absurd h (by simp)
    · rw [if_neg hc] at h
      injection h with h1 h2
      subst h1
      exact Nat.le_refl _

/-- C9: for every bind oracle and every `N >= 1`, whenever `Server.start`
returns normally its port list is non-empty — the first loop iteration either
records a bound port (and the list only grows afterwards) or raises — so the
orchestrator's zero-ports check `if not len(s_ports)` never fires
(`mainPortCheck` yields no `NO_PORT_TO_USE` error) on a normal return. -/
theorem Server.start_ok_nonempty (bindOk : Nat → Bool) (threads n fuel p : Nat)
    (hn : 1 ≤ n) (l a : List Nat)
    (h : Server.start bindOk threads n fuel p = StartResult.ok l a) :
    l ≠ [] ∧ mainPortCheck l = none := by
  have hlen : 1 ≤ l.length := by
    unfold Server.start at h
    cases fuel with
    | zero => exact absurd h (by simp [Server.startLoop])
    | succ f =>
      rw [Server.startLoop, if_pos (Or.inl (show 0 < n by omega))] at h
      cases hb : bindOk p with
      | true =>
        rw [if_pos hb] at h
        have := Server.startLoop_ok_length bindOk n f (p + 1) 1 [p] [p] l a h
        simpa using this
      | false =>
        rw [if_neg (by simp [hb])] at h
        exact absurd h (by simp)
    
  refine ⟨?_, ?_⟩
  · intro hnil
    rw [hnil] at hlen
    simp at hlen
  · unfold mainPortCheck
    rw [if_neg (by omega)]

/-- C9, witness: with every bind succeeding, `N = 1`, fuel 2 and base port 100,
`Server.start` returns `[100]`, which is non-empty and passes the
orchestrator's port check. -/
theorem Server.start_ok_nonempty_witness :
    [100] ≠ ([] : List Nat) ∧ mainPortCheck [100] = none :=
  Server.start_ok_nonempty (fun _ => true) 1 1 2 100 (by decide) [100] [100] (by decide)

/-- `client_thread.run` stops exactly at the first attempt whose `connect`
returned `True`: a reported stopping index `k` satisfies `i <= k`, attempt `k`
succeeded, and every attempt strictly between the start index and `k`
failed. -/
theorem client_thread.run_first_success (envs : Nat → AttemptEnv) :
    ∀ fuel i k, client_thread.run envs fuel i = some k →
      i ≤ k ∧ (client_thread.connect (envs k)).ret = true ∧
      ∀ j, i ≤ j → j < k → (client_thread.connect (envs j)).ret = false := by
  intro fuel
  induction fuel with
  | zero => intro i k h; exact absurd h (by simp [client_thread.run])
  | succ f ih =>
    intro i k h
    rw [client_thread.run] at h
    by_cases hc : (client_thread.connect (envs i)).ret = true
    · rw [if_pos hc] at h
      injection h with h1
      subst h1
      exact ⟨Nat.le_refl _, hc, fun j hj1 hj2 => (show False by omega).elim⟩
    · rw [if_neg hc] at h
      obtain ⟨h1, h2, h3⟩ := ih (i + 1) k h
      rw [Bool.not_eq_true] at hc
      refine ⟨by omega, h2, ?_⟩
      intro j hj1 hj2
      by_cases hji : j = i
      · subst hji; exact hc
      · exact h3 j (by omega) hj2

/-- A driver that stopped at attempt `k` with success there and failures
before it performed exactly one successful send over attempts `0, ..., k`. -/
theorem sendSuccessCount_eq_one (envs : Nat → AttemptEnv) (k : Nat)
    (hk : (client_thread.connect (envs k)).ret = true)
    (hlt : ∀ j, j < k → (client_thread.connect (envs j)).ret = false) :
    sendSuccessCount envs k = 1 := by
  unfold sendSuccessCount
  rw [List.range_succ, List.filter_append]
  have h1 : (List.range k).filter (fun j => (client_thread.connect (envs j)).ret) = [] := by
    rw [List.filter_eq_nil_iff]
    intro a ha
    rw [List.mem_range] at ha
    simp [hlt a ha]
  have h2 : [k].filter (fun j => (client_thread.connect (envs j)).ret) = [k] := by
    simp [List.filter, hk]
  rw [h1, h2]
  rfl

/-- C5: when `Client.join` returns, every one of the launched client drivers
has terminated at the first attempt whose `connect` returned `True` (all
earlier attempts against its single fixed target failed), so each driver
achieved exactly one successful send, and the total number of successful sends
across all drivers equals the number of drivers (`client_count`). -/
theorem Client.join_one_success_each (ds : List (Nat → AttemptEnv)) (fuel : Nat)
    (ks : List Nat) (h : Client.join fuel ds = some ks) :
    ks.length = ds.length ∧
    (∀ pr ∈ ds.zip ks,
      (client_thread.connect (pr.1 pr.2)).ret = true ∧
      (∀ j, j < pr.2 → (client_thread.connect (pr.1 j)).ret = false) ∧
      sendSuccessCount pr.1 pr.2 = 1) ∧
    ((ds.zip ks).map fun pr => sendSuccessCount pr.1 pr.2).sum = ds.length := by
  induction ds generalizing ks with
  | nil =>
    rw [Client.join] at h
    injection h with h1
    subst h1
    exact ⟨rfl, by simp, by simp⟩
  | cons d ds ih =>
    rw [Client.join] at h
    cases hr : client_thread.run d fuel 0 with
    | none => rw [hr] at h; simp at h
    | some k =>
      cases hj : Client.join fuel ds with
      | none => rw [hr, hj] at h; simp at h
      | some ks0 =>
        rw [hr, hj] at h
        injection h with h1
        subst h1
        obtain ⟨hlen, hall, hsum⟩ := ih ks0 hj
        obtain ⟨h0le, hk, hlt⟩ := client_thread.run_first_success d fuel 0 k hr
        have hlt0 : ∀ j, j < k → (client_thread.connect (d j)).ret = false :=
          fun j hj2 => hlt j (Nat.zero_le j) hj2
        refine ⟨by simp [hlen], ?_, ?_⟩
        · intro pr hpr
          rw [List.zip_cons_cons] at hpr
          rcases List.mem_cons.mp hpr with h1 | h1
          · subst h1
            exact ⟨hk, hlt0, sendSuccessCount_eq_one d k hk hlt0⟩
          · exact hall pr h1
        · rw [List.zip_cons_cons, List.map_cons, List.sum_cons, hsum,
            sendSuccessCount_eq_one d k hk hlt0]
          simp only [List.length_cons]
          omega

/-- C5, witness: one driver whose attempt 0 fails and attempt 1 succeeds; a
join that returned `[1]` certifies one successful send at index 1 and a total
of exactly one send for the one driver. -/
theorem Client.join_one_success_each_witness :
    ([1] : List Nat).length = 1 ∧
    (∀ pr ∈ ([fun j => AttemptEnv.mk (decide (j = 1)) true] :
        List (Nat → AttemptEnv)).zip ([1] : List Nat),
      (client_thread.connect (pr.1 pr.2)).ret = true ∧
      (∀ j, j < pr.2 → (client_thread.connect (pr.1 j)).ret = false) ∧
      sendSuccessCount pr.1 pr.2 = 1) ∧
    ((([fun j => AttemptEnv.mk (decide (j = 1)) true] :
        List (Nat → AttemptEnv)).zip ([1] : List Nat)).map
      fun pr => sendSuccessCount pr.1 pr.2).sum = 1 :=
  Client.join_one_success_each [fun j => AttemptEnv.mk (decide (j = 1)) true] 5 [1]
    (by decide)

/-- With a non-empty port list, `random.randint(0, s_n - 1)` never raises and
yields the oracle value reduced modulo the list length. -/
theorem randint0_nonempty (r : Nat → Nat) (ports : List Nat) (hne : ports ≠ []) :
    ∀ i, randint0 r i ((ports.length : Int) - 1) = Except.ok (r i % ports.length) := by
  have hlen : 1 ≤ ports.length := List.length_pos.mpr hne
  intro i
  unfold randint0
  rw [if_neg (by omega)]
  have hmod : ((ports.length : Int) - 1).toNat + 1 = ports.length := by omega
  rw [hmod]

/-- With a non-empty port list the `Client.start` loop launches one client per
remaining iteration, each constructed with the port drawn for it. -/
theorem Client.startLoop_targets (r : Nat → Nat) (ports : List Nat) (hne : ports ≠ []) :
    ∀ c i started,
      Client.startLoop r ports c i started =
        ClientStartResult.ok
          (started ++ (List.range' i c).map fun j => ports.getD (r j % ports.length) 0) := by
  intro c
  induction c with
  | zero => intro i started; simp [Client.startLoop]
  | succ m ih =>
    intro i started
    have hred : Client.startLoop r ports (m + 1) i started =
        Client.startLoop r ports m (i + 1)
          (started ++ [ports.getD (r i % ports.length) 0]) := by
      rw [Client.startLoop, randint0_nonempty r ports hne i]
    rw [hred, ih (i + 1) (started ++ [ports.getD (r i % ports.length) 0]),
      List.range'_succ, List.map_cons]
    simp

/-- C6: for every non-empty target list and every `client_count`,
`Client.start` launches exactly `client_count` client threads; the `i`-th
thread's target is `s_ports[tar_index]` for the per-thread draw
`tar_index = r i % len(s_ports)` of `random.randint(0, s_n - 1)` — an index
in `[0, len(s_ports) - 1]` — and is fixed at the thread's construction (it is
the address stored in the `client_thread`), with replacement across
threads. -/
theorem Client.start_targets (r : Nat → Nat) (s_ports : List Nat) (c_n : Nat)
    (hne : s_ports ≠ []) :
    Client.start r s_ports c_n =
      ClientStartResult.ok
        ((List.range c_n).map fun i => s_ports.getD (r i % s_ports.length) 0) ∧
    ((List.range c_n).map fun i => s_ports.getD (r i % s_ports.length) 0).length = c_n ∧
    ∀ i, i < c_n → r i % s_ports.length < s_ports.length ∧
      s_ports.getD (r i % s_ports.length) 0 ∈ s_ports := by
  have hlen : 0 < s_ports.length := List.length_pos.mpr hne
  refine ⟨?_, by simp, ?_⟩
  · unfold Client.start
    rw [Client.startLoop_targets r s_ports hne c_n 0 [], List.range_eq_range']
    simp
  · intro i hi
    have hmod : r i % s_ports.length < s_ports.length := Nat.mod_lt _ hlen
    refine ⟨hmod, ?_⟩
    rw [List.getD_eq_getElem _ _ hmod]
    exact List.getElem_mem hmod

/-- C6, witness: two ports, three clients, identity oracle: the launched
clients target ports 7000, 7001, 7000 — three threads, drawn indices 0, 1, 0,
all within range, with replacement. -/
theorem Client.start_targets_witness :
    Client.start (fun i => i) [7000, 7001] 3 =
      ClientStartResult.ok [7000, 7001, 7000] ∧
    ([7000, 7001, 7000] : List Nat).length = 3 ∧
    (∀ i, i < 3 → (fun i => i) i % ([7000, 7001] : List Nat).length <
        ([7000, 7001] : List Nat).length ∧
      ([7000, 7001] : List Nat).getD
        ((fun i => i) i % ([7000, 7001] : List Nat).length) 0 ∈
        ([7000, 7001] : List Nat)) :=
  Client.start_targets (fun i => i) [7000, 7001] 3 (by decide)

/-- C10: for every `client_count >= 1`, `Client.start` on an empty target list
raises on the very first iteration — `random.randint(0, -1)` has an empty
range, a `ValueError` — and the list of already-launched client threads at the
raise is empty, so no driver is ever launched. -/
theorem Client.start_empty_raises (r : Nat → Nat) (c_n : Nat) (h : 1 ≤ c_n) :
    Client.start r [] c_n = ClientStartResult.valueError [] := by
  unfold Client.start
  cases c_n with
  | zero => omega
  | succ m => rfl

/-- C10, witness: one requested client against an empty target list raises
immediately with no drivers launched. -/
theorem Client.start_empty_raises_witness :
    Client.start (fun _ => 0) [] 1 = ClientStartResult.valueError [] :=
  Client.start_empty_raises (fun _ => 0) 1 (by decide)
